import Mathlib

/-!
Shallow embedding of TopoSorter (src/TopoSorter.py) and verification of
its specification.

The program fetches a JSON list of relay endpoints over HTTP, probes each
endpoint once with a TCP connect() to approximate its RTT, sorts the
endpoints ascending by that latency with pandas, and writes the first
NB_ROWS entries to a fixed topology file as JSON.

Modelling conventions:
  - latencies and other Python floats are rationals (Lat := Rat);
  - the network is an oracle: the HTTP layer is an Except-valued response
    argument, the per-endpoint probe is a function from (host, port) to a
    ProbeOutcome deciding which branch of try/except of get_rtt runs;
  - Python exceptions are values of PyExc; a function that can raise
    returns Except PyExc;
  - the pandas DataFrame with columns [addr, port, continent, state,
    RTT] is a List Row whose cells are Option J, none standing for the
    NaN that pandas stores in a cell whose source record lacks the key;
  - df.sort_values(by=[RTT], inplace=True) is modelled by its pandas
    contract sort_data_post (an ascending permutation); the default
    kind=quicksort is documented by pandas as not stable, so no
    stability is built into the model;
  - file and console output are returned as data (paths, JSON documents,
    lists of printed lines) instead of performed.
-/

namespace TopoSorter

/-- Latency values and other Python floats, modelled as rationals. -/
abbrev Lat := Rat

/-- Minimal JSON values, as returned by Response.json() and consumed by
json.dump. The nan constructor models the float nan that pandas yields
when a cell that was NaN is read back out of the frame. -/
inductive J where
  | str : String → J
  | num : Lat → J
  | nan : J
  | obj : List (String × J) → J
  | arr : List J → J

/-- Python exceptions that the modelled code can raise or catch. -/
inductive PyExc where
  | httpError (code : Nat)
  | requestsConnErr
  | jsonDecodeErr
  | keyError (key : String)
  | valueError
  | typeErr
  | nameError (missing : String)
  deriving DecidableEq

/-- An HTTP response: its status_code and the JSON parse of its body
(none when the body is not valid JSON, in which case Response.json()
raises). -/
structure Resp where
  status : Nat
  body : Option J

/-- Output filename hard-coded at line 67 of TopoSorter.py. -/
def TOPOLOGY_FILENAME : String := "topology.yaml"

/-- Number of entries saved to the topology file (line 69). -/
def NB_ROWS : Nat := 4

/-- Response.raise_for_status(): raises HTTPError exactly when the status
code is in the client/server error range 400..599. -/
def raiseForStatus (r : Resp) : Except PyExc Unit :=
  if 400 ≤ r.status ∧ r.status < 600 then .error (.httpError r.status) else .ok ()

/-- Text printed for a caught exception by print(e) at line 83; the
wording is that of requests, so any rendering carrying the status code is
faithful for the properties proved below. -/
def excMsg : PyExc → String
  | .httpError c => toString c ++ " Error for url"
  | _ => "error"

/-- do_http_get (lines 77-86). The argument is the answer of the network to
rq.get(url): a response, or a requests-level connection failure. The
try/except is modelled branch by branch: when the status is not 200,
raise_for_status() may raise HTTPError, which the first except clause
catches and prints, after which control falls through to the final
return r -- so the response is returned even on an error status. A
failure of rq.get itself propagates: the ConnectionError class of requests derives
from OSError but not from the builtin ConnectionError that the second
except clause names, so that clause never matches it. Returns the lines
printed and the outcome. -/
def do_http_get (net : Except PyExc Resp) : List String × Except PyExc Resp :=
  match net with
  | .error e => ([], .error e)
  | .ok r =>
    if r.status ≠ 200 then
      match raiseForStatus r with
      | .error e => ([excMsg e], .ok r)
      | .ok _ => ([], .ok r)
    else ([], .ok r)

/-- One row of the DataFrame built with columns
[addr, port, continent, state, RTT]; a cell is none when the
source record lacked that key (pandas stores NaN there). -/
structure Row where
  addr : Option J
  port : Option J
  continent : Option J
  state : Option J
  rtt : Option J

/-- Row contributed by one producer record: for each listed column, the
value in the record when the key is present and NaN (none) otherwise. This is
the from-records behaviour of pandas: a missing key is not an error. -/
def mkRow (kvs : List (String × J)) : Row :=
  ⟨kvs.lookup "addr", kvs.lookup "port", kvs.lookup "continent",
   kvs.lookup "state", kvs.lookup "RTT"⟩

/-- One record of the Producers list, as consumed by pd.DataFrame: a
JSON object becomes a row via mkRow; a non-object record makes the
DataFrame constructor raise. -/
def rowOfRecord : J → Except PyExc Row
  | .obj kvs => .ok (mkRow kvs)
  | _ => .error .valueError

/-- pd.DataFrame(p, columns=[addr, port, continent, state, RTT])
(line 96) on the JSON value p: p must be a list of records; each record
contributes one row in order. -/
def mkDataFrame : J → Except PyExc (List Row)
  | .arr recs => recs.mapM rowOfRecord
  | _ => .error .valueError

/-- Response.json(): the parse of the body, raising when the body is not
valid JSON. -/
def respJson (r : Resp) : Except PyExc J :=
  match r.body with
  | some j => .ok j
  | none => .error .jsonDecodeErr

/-- Python subscription j[k] on a JSON value: KeyError when an object
lacks the key, TypeError when j is not an object. -/
def jGet (j : J) (k : String) : Except PyExc J :=
  match j with
  | .obj kvs =>
    match kvs.lookup k with
    | some v => .ok v
    | none => .error (.keyError k)
  | _ => .error .typeErr

/-- Body of get_dataframe after do_http_get returned response r (lines
90-96): parse the body as JSON, subscript Producers, build the frame.
Any failure propagates out of get_dataframe. -/
def parseBody (r : Resp) : Except PyExc (List Row) := do
  let j ← respJson r
  let p ← jGet j "Producers"
  mkDataFrame p

/-- get_dataframe (lines 88-96): whatever do_http_get hands back --
including a response with an error status -- is parsed by parseBody.
Returns the printed lines of do_http_get alongside the outcome. -/
def get_dataframe (net : Except PyExc Resp) : List String × Except PyExc (List Row) :=
  let lr := do_http_get net
  (lr.1, lr.2.bind parseBody)

/-- Outcome of one connect() attempt, decided by the network: success
with the measured elapsed wall-clock time, or one of the three except
branches of get_rtt: ConnectionRefusedError; IOError, which covers
socket.timeout and getaddrinfo failure (both are OSError = IOError); or
any other Exception, e.g. the TypeError raised when the host cell is
NaN. Only BaseException escapees (KeyboardInterrupt, SystemExit) fall
outside this model. -/
inductive ProbeOutcome where
  | ok (elapsed : Lat)
  | refused (msg : String)
  | ioFailure (msg : String)
  | otherExc (msg : String)

/-- True on every outcome other than a successful connect. -/
def ProbeOutcome.isFailure : ProbeOutcome → Bool
  | .ok _ => false
  | _ => true

/-- Sentinel latency d = 255.0 chosen at line 100. -/
def sentinel : Lat := 255

/-- Socket timeout in seconds, s.settimeout(3) at line 112. -/
def timeoutSeconds : Lat := 3

/-- ANSI red wrapping used by the diagnostic prints at lines 121-125. -/
def red (s : String) : String := "\x1b[31m" ++ s ++ "\x1b[0m"

/-- get_rtt (lines 98-129) given the probe outcome chosen by the
network: returns the latency d and the printed lines. d is initialised
to the sentinel and replaced by end_time - start_time only when
connect() returns; every except branch leaves the sentinel in place and
prints a red diagnostic that starts with the host. The socket close in
the finally clause has no observable effect in this model. -/
def get_rtt (host port : String) (out : ProbeOutcome) : Lat × List String :=
  let check := "Check RTT on " ++ host ++ " " ++ port ++ "/tcp"
  match out with
  | .ok t => (t, [check])
  | .refused m => (sentinel, [check, red (host ++ " " ++ m)])
  | .ioFailure _ => (sentinel, [check, red (host ++ " NXDOMAIN OR timeout")])
  | .otherExc m => (sentinel, [check, red (host ++ " Unknown exception " ++ m)])

/-- Python str() of a cell value, as interpolated into the
messages and keyed on by the probe oracle; NaN renders as nan. The
container renderings are schematic: no claim depends on them. -/
def render : Option J → String
  | some (.str s) => s
  | some (.num q) => toString q
  | some .nan => "nan"
  | some (.obj _) => "obj"
  | some (.arr _) => "list"
  | none => "nan"

/-- Measurement loop of get_data (lines 137-139): for each row of the
frame, in order, overwrite the RTT cell with the result of
get_rtt(row.addr, row.port). The probe oracle decides each attempt. -/
def measureRows (probe : String → String → ProbeOutcome) (frame : List Row) : List Row :=
  frame.map (fun r =>
    { r with rtt := some (J.num (get_rtt (render r.addr) (render r.port)
        (probe (render r.addr) (render r.port))).1) })

/-- Sort key of a row: its RTT cell when that cell holds a float, none
otherwise; pandas places keyless (NaN) rows last (na_position defaults
to last). After measureRows every RTT cell holds a float. -/
def rttKey (r : Row) : Option Lat :=
  match r.rtt with
  | some (.num q) => some q
  | _ => none

/-- Ascending comparison of sort keys with NaN (none) placed last. -/
def keyLeB : Option Lat → Option Lat → Bool
  | some a, some b => decide (a ≤ b)
  | some _, none => true
  | none, none => true
  | none, some _ => false

/-- Contract of df.sort_values(by=[RTT], inplace=True) at line 145:
pandas guarantees the resulting frame is a permutation of the rows,
ascending in the RTT key. It does NOT guarantee more: the default
kind=quicksort is documented by pandas as not stable (only
kind=mergesort and kind=stable are), so sort_data is modelled by
this postcondition relating the frame before the call to the frame
after it, and stability questions are settled against this contract. -/
def sort_data_post (input output : List Row) : Prop :=
  output.Perm input ∧
  output.Chain' (fun a b => keyLeB (rttKey a) (rttKey b) = true)

/-- Value read back from a cell by row[1], row[2] in the
loop: the stored value, or float nan for a NaN cell. -/
def cellVal (c : Option J) : J := c.getD .nan

/-- One Producers entry built by the loop at lines 152-157: addr and
port copied from the row, valency the literal 1. -/
def producerEntry (r : Row) : J :=
  .obj [("addr", cellVal r.addr), ("port", cellVal r.port), ("valency", .num 1)]

/-- save_topo_file (lines 147-160): builds the JSON document and writes
it with json.dump. The open() call at line 159 hard-codes
TOPOLOGY_FILENAME and never reads the fn parameter. Result: the path
actually opened and the JSON document written to it. -/
def save_topo_file (fn : String) (df : List Row) : String × J :=
  (TOPOLOGY_FILENAME, .obj [("Producers", .arr (df.map producerEntry))])

/-- Write performed by the final statement of main at line 198:
save_topo_file(TOPOLOGY_FILENAME, df.iloc[:NB_ROWS]) on the sorted
frame; iloc takes the first NB_ROWS rows positionally. -/
def writeStep (df : List Row) : String × J :=
  save_topo_file TOPOLOGY_FILENAME (df.take NB_ROWS)

/-- Observable side effects of one run: number of probe attempts made,
the file write performed (path and document), and the lines the program
itself wrote to stderr. -/
structure Effects where
  probesRun : Nat
  written : Option (String × J)
  stderrOut : List String

/-- main (lines 182-198). connected is the verdict of is_connected(), net the
HTTP oracle, probe the per-endpoint oracle, and sortImpl an arbitrary
realisation of sort_values (the sorting theorems constrain it through
sort_data_post instead of fixing an algorithm). When connected is false,
evaluating sys.stderr.write(...) at line 185 raises NameError: the
module never imports sys, so the program writes nothing to stderr and
sys.exit(-1) at line 186 is never reached; the interpreter then prints a
traceback and exits with status 1, outside this model. On the connected
path, a get_dataframe failure aborts before any probe or write;
otherwise every row is probed once, the frame is sorted, and the first
NB_ROWS rows are written. -/
def runMain (connected : Bool) (net : Except PyExc Resp)
    (probe : String → String → ProbeOutcome)
    (sortImpl : List Row → List Row) : Except PyExc Unit × Effects :=
  if connected then
    match (get_dataframe net).2 with
    | .error e => (.error e, ⟨0, none, []⟩)
    | .ok frame =>
      let sorted := sortImpl (measureRows probe frame)
      (.ok (), ⟨frame.length, some (writeStep sorted), []⟩)
  else
    (.error (.nameError "sys"), ⟨0, none, []⟩)

/-- Concrete probe oracle for evaluation: host h1 connects in 1 second,
every other host is refused. -/
def probeW : String → String → ProbeOutcome := fun h _ =>
  if h = "h1" then .ok 1 else .refused "[Errno 111] Connection refused"

/-- Concrete unmeasured row for host h1. -/
def rowW1 : Row :=
  ⟨some (.str "h1"), some (.num 3001), some (.str "EU"), some (.str "DE"), none⟩

/-- Concrete unmeasured row for host h2. -/
def rowW2 : Row :=
  ⟨some (.str "h2"), some (.num 3002), some (.str "NA"), some (.str "US"), none⟩

/-- Concrete measured row for host h1 with the sentinel latency. -/
def tieA : Row :=
  ⟨some (.str "h1"), some (.num 3001), some (.str "EU"), some (.str "DE"),
   some (.num 255)⟩

/-- Concrete measured row for host h2 with the sentinel latency. -/
def tieB : Row :=
  ⟨some (.str "h2"), some (.num 3002), some (.str "NA"), some (.str "US"),
   some (.num 255)⟩

/-- Concrete already-sorted ten-row frame for evaluating truncation. -/
def df10 : List Row := List.replicate 10 tieA

/-- Concrete body carrying a well-formed Producers list. -/
def producersBody : J :=
  .obj [("Producers", .arr [.obj [("addr", .str "h1"), ("port", .num 3001),
    ("continent", .str "EU"), ("state", .str "DE")]])]

/-- Concrete 404 response whose body nonetheless parses as a Producers
document. -/
def resp404 : Resp := ⟨404, some producersBody⟩

/-- Concrete producer record that lacks port, continent and state. -/
def recMissingPort : J := .obj [("addr", .str "h1")]

/-- Appending of strings is associative (strings append by their
character lists). -/
theorem strAppendAssoc (a b c : String) : a ++ b ++ c = a ++ (b ++ c) := by
  simp only [String.congr_append, List.append_assoc]

/-- Transitivity of the ascending key comparison. -/
theorem keyLeB_trans (a b c : Option Lat) (hab : keyLeB a b = true)
    (hbc : keyLeB b c = true) : keyLeB a c = true := by
  cases a <;> cases b <;> cases c <;>
    simp only [keyLeB, decide_eq_true_eq, Bool.false_eq_true] at hab hbc ⊢ <;>
    exact le_trans hab hbc

/-- Claim C1: ranking -- the measurement loop of get_data followed by
sort_data -- produces a collection of the same length as the input
endpoint collection, a permutation of the measured rows (no entry
dropped or duplicated), ordered so that every adjacent pair of rows has
ascending latency; no truncation happens during ranking. -/
theorem ranking_same_length_perm_sorted
    (probe : String → String → ProbeOutcome) (frame output : List Row)
    (h : sort_data_post (measureRows probe frame) output) :
    output.length = frame.length ∧
    output.Perm (measureRows probe frame) ∧
    output.Chain' (fun a b => keyLeB (rttKey a) (rttKey b) = true) := by
  obtain ⟨hp, hc⟩ := h
  refine ⟨?_, hp, hc⟩
  rw [hp.length_eq]
  exact List.length_map _ _

/-- Witness for claim C1 at a concrete two-endpoint collection whose
measured order is already ascending. -/
theorem ranking_same_length_perm_sorted_witness :
    sort_data_post (measureRows probeW [rowW1, rowW2])
        (measureRows probeW [rowW1, rowW2]) ∧
    ((measureRows probeW [rowW1, rowW2]).length = [rowW1, rowW2].length ∧
     (measureRows probeW [rowW1, rowW2]).Perm (measureRows probeW [rowW1, rowW2]) ∧
     (measureRows probeW [rowW1, rowW2]).Chain'
        (fun a b => keyLeB (rttKey a) (rttKey b) = true)) :=
  ⟨⟨List.Perm.refl _, by
      simp [measureRows, probeW, rowW1, rowW2, render, get_rtt, rttKey, keyLeB,
        sentinel, List.chain'_cons]⟩,
   ranking_same_length_perm_sorted probeW [rowW1, rowW2] _
     ⟨List.Perm.refl _, by
        simp [measureRows, probeW, rowW1, rowW2, render, get_rtt, rttKey, keyLeB,
          sentinel, List.chain'_cons]⟩⟩

/-- Claim C9, model check at the failing input: with is_connected()
returning false, the run stops with NameError on the name sys -- the
module never does an import of sys -- so no diagnostic is written to stderr,
sys.exit(-1) is never reached, and no fetch, probe or write is
attempted. The interpreter-level traceback and exit status 1 happen
outside the program text. -/
theorem no_connectivity_raises_nameerror (net : Except PyExc Resp)
    (probe : String → String → ProbeOutcome) (sortImpl : List Row → List Row) :
    runMain false net probe sortImpl =
      (.error (.nameError "sys"), ⟨0, none, []⟩) := rfl

/-- Claim C10: save_topo_file never reads its fn parameter: any two path
arguments yield the identical write, and the path actually opened is
always TOPOLOGY_FILENAME, the literal topology.yaml, in the current
working directory. -/
theorem save_topo_file_ignores_fn (fn1 fn2 : String) (df : List Row) :
    save_topo_file fn1 df = save_topo_file fn2 df ∧
    (save_topo_file fn1 df).1 = TOPOLOGY_FILENAME ∧
    TOPOLOGY_FILENAME = "topology.yaml" :=
  ⟨rfl, rfl, rfl⟩

/-- Claim C2 counterexample: for the concrete input [tieA, tieB], whose
rows carry the equal sentinel latency, the swapped order [tieB, tieA]
also satisfies the contract of sort_values -- the default quicksort of pandas
guarantees an ascending permutation and nothing more -- yet the two
equal-latency rows appear in it in reversed relative order: the
subsequence of sentinel-latency rows differs from the order in the input. The sort
performed by sort_data is therefore not guaranteed stable. -/
theorem sort_data_not_stable_cex :
    sort_data_post [tieA, tieB] [tieB, tieA] ∧
    ¬ (List.filter (fun r => decide (rttKey r = some sentinel)) [tieB, tieA] =
       List.filter (fun r => decide (rttKey r = some sentinel)) [tieA, tieB]) := by
  refine ⟨⟨List.Perm.swap tieA tieB [], ?_⟩, ?_⟩
  · simp [tieA, tieB, rttKey, keyLeB, List.chain'_cons]
  · simp [tieA, tieB, rttKey, sentinel]

/-- Claim C2 amended: sort_data preserves each latency class -- for
every key value, the rows carrying that latency appear in the output
with unchanged multiplicity -- but their relative order within the class
is not guaranteed, the default quicksort of pandas not being stable. -/
theorem sort_data_preserves_latency_classes (input output : List Row)
    (h : sort_data_post input output) (k : Option Lat) :
    (List.filter (fun r => decide (rttKey r = k)) output).length =
    (List.filter (fun r => decide (rttKey r = k)) input).length :=
  (List.Perm.filter _ h.1).length_eq

/-- Witness for the amended claim C2 at a concrete tied input. -/
theorem sort_data_preserves_latency_classes_witness :
    sort_data_post [tieA, tieB] [tieB, tieA] ∧
    (List.filter (fun r => decide (rttKey r = some sentinel)) [tieB, tieA]).length =
    (List.filter (fun r => decide (rttKey r = some sentinel)) [tieA, tieB]).length :=
  ⟨⟨List.Perm.swap tieA tieB [], by simp [tieA, tieB, rttKey, keyLeB, List.chain'_cons]⟩,
   sort_data_preserves_latency_classes [tieA, tieB] [tieB, tieA]
     ⟨List.Perm.swap tieA tieB [], by simp [tieA, tieB, rttKey, keyLeB, List.chain'_cons]⟩
     (some sentinel)⟩

/-- Claim C3: get_rtt is total at its interface. On every probe failure
-- connection refused, I/O failure (resolution failure or timeout), or
any other exception -- the sentinel 255.0 is returned and one of the
printed lines is a diagnostic containing the host; no failure escapes,
so the measurement loop keeps every endpoint and the ranking pipeline
continues with a collection of unchanged length. -/
theorem get_rtt_total_on_failure (host port : String) (out : ProbeOutcome)
    (h : out.isFailure = true) :
    (get_rtt host port out).1 = sentinel ∧
    (∃ msg ∈ (get_rtt host port out).2, ∃ pre suf, msg = pre ++ host ++ suf) ∧
    (∀ probe frame, (measureRows probe frame).length = frame.length) := by
  have hlen : ∀ (probe : String → String → ProbeOutcome) (frame : List Row),
      (measureRows probe frame).length = frame.length :=
    fun probe frame => List.length_map _ _
  cases out with
  | ok t => simp [ProbeOutcome.isFailure] at h
  | refused m =>
    refine ⟨rfl, ⟨red (host ++ " " ++ m), ?_, "\x1b[31m", " " ++ m ++ "\x1b[0m", ?_⟩, hlen⟩
    · simp [get_rtt]
    · simp only [red, strAppendAssoc]
  | ioFailure m =>
    refine ⟨rfl, ⟨red (host ++ " NXDOMAIN OR timeout"), ?_, "\x1b[31m",
      " NXDOMAIN OR timeout" ++ "\x1b[0m", ?_⟩, hlen⟩
    · simp [get_rtt]
    · simp only [red, strAppendAssoc]
  | otherExc m =>
    refine ⟨rfl, ⟨red (host ++ " Unknown exception " ++ m), ?_, "\x1b[31m",
      " Unknown exception " ++ m ++ "\x1b[0m", ?_⟩, hlen⟩
    · simp [get_rtt]
    · simp only [red, strAppendAssoc]

/-- Witness for claim C3: a concrete refused probe. -/
theorem get_rtt_total_on_failure_witness :
    (ProbeOutcome.refused "[Errno 111] Connection refused").isFailure = true ∧
    ((get_rtt "relay.example" "3001"
        (.refused "[Errno 111] Connection refused")).1 = sentinel ∧
     (∃ msg ∈ (get_rtt "relay.example" "3001"
        (.refused "[Errno 111] Connection refused")).2,
        ∃ pre suf, msg = pre ++ "relay.example" ++ suf) ∧
     (∀ probe frame, (measureRows probe frame).length = frame.length)) :=
  ⟨rfl, get_rtt_total_on_failure "relay.example" "3001" _ rfl⟩

/-- Claim C4: on an already-sorted frame of at least four rows, the
write step of the pipeline emits a JSON object with the single field
Producers holding exactly the first NB_ROWS = 4 entries; each entry
copies addr and port verbatim from the corresponding input row and fixes
valency at 1; rows beyond the fourth are not written. -/
theorem writeStep_truncates_to_four (df : List Row) (h : 4 ≤ df.length) :
    ∃ entries : List J,
      (writeStep df).2 = J.obj [("Producers", J.arr entries)] ∧
      entries.length = 4 ∧
      ∀ i (hd : i < df.length) (he : i < entries.length),
        entries.get ⟨i, he⟩ =
          J.obj [("addr", cellVal (df.get ⟨i, hd⟩).addr),
                 ("port", cellVal (df.get ⟨i, hd⟩).port),
                 ("valency", J.num 1)] := by
  refine ⟨(df.take NB_ROWS).map producerEntry, rfl, ?_, ?_⟩
  · rw [List.length_map, List.length_take]
    simp only [NB_ROWS]
    omega
  · intro i hd he
    rw [List.get_eq_getElem, List.get_eq_getElem]
    simp only [List.getElem_map, List.getElem_take]
    rfl

/-- Witness for claim C4 at a concrete ten-row sorted frame. -/
theorem writeStep_truncates_to_four_witness :
    4 ≤ df10.length ∧
    (∃ entries : List J,
      (writeStep df10).2 = J.obj [("Producers", J.arr entries)] ∧
      entries.length = 4 ∧
      ∀ i (hd : i < df10.length) (he : i < entries.length),
        entries.get ⟨i, he⟩ =
          J.obj [("addr", cellVal (df10.get ⟨i, hd⟩).addr),
                 ("port", cellVal (df10.get ⟨i, hd⟩).port),
                 ("valency", J.num 1)]) :=
  ⟨by norm_num [df10], writeStep_truncates_to_four df10 (by norm_num [df10])⟩

/-- Helper: do_http_get always hands back the response it received,
whatever the status code -- the HTTPError raised by raise_for_status is
caught and printed, and control falls through to return r. -/
theorem do_http_get_returns_resp (r : Resp) : (do_http_get (.ok r)).2 = .ok r := by
  simp only [do_http_get]
  split
  · split <;> rfl
  · rfl

/-- Claim C5: when the fetched document is JSON lacking the Producers
field, the run aborts with the KeyError raised inside get_dataframe:
zero probes are run and the output file is never opened or written.
Holds for every status code, probe oracle and sort realisation. -/
theorem missing_producers_aborts (st : Nat) (kvs : List (String × J))
    (h : kvs.lookup "Producers" = none)
    (probe : String → String → ProbeOutcome) (sortImpl : List Row → List Row) :
    runMain true (.ok ⟨st, some (.obj kvs)⟩) probe sortImpl =
      (.error (.keyError "Producers"), ⟨0, none, []⟩) := by
  have hdf : (get_dataframe (.ok (⟨st, some (.obj kvs)⟩ : Resp))).2 =
      parseBody ⟨st, some (.obj kvs)⟩ := by
    show ((do_http_get (.ok ⟨st, some (.obj kvs)⟩)).2.bind parseBody) = _
    rw [do_http_get_returns_resp]
    rfl
  have hparse : parseBody (⟨st, some (.obj kvs)⟩ : Resp) =
      .error (.keyError "Producers") := by
    show Except.bind (jGet (J.obj kvs) "Producers") (fun p => mkDataFrame p) = _
    simp only [jGet, h]
    rfl
  simp [runMain, hdf, hparse]

/-- Witness for claim C5: a concrete 200 response whose JSON object has
no Producers key. -/
theorem missing_producers_aborts_witness :
    (([("Foo", J.num 1)] : List (String × J)).lookup "Producers" = none) ∧
    runMain true (.ok ⟨200, some (.obj [("Foo", J.num 1)])⟩) probeW id =
      (.error (.keyError "Producers"), ⟨0, none, []⟩) :=
  ⟨rfl, missing_producers_aborts 200 [("Foo", J.num 1)] rfl probeW id⟩

/-- Claim C6 counterexample: a 404 response whose body happens to parse
as a Producers document. do_http_get catches the HTTPError raised by
raise_for_status, prints it and still returns the response, and
get_dataframe proceeds to build the frame from the 404 body: the fetch
operation does not fail. -/
theorem non200_fetch_proceeds_cex :
    resp404.status ≠ 200 ∧
    (get_dataframe (.ok resp404)).2 =
      .ok [⟨some (.str "h1"), some (.num 3001), some (.str "EU"),
            some (.str "DE"), none⟩] :=
  ⟨by decide, rfl⟩

/-- Claim C6 amended: on a non-success status in the HTTPError status range
(400..599) the error is reported -- do_http_get prints the HTTPError --
but the operation does not fail: the response is returned regardless and
the outcome of get_dataframe is exactly the parse of the non-success body, as
if the fetch had succeeded. -/
theorem non200_reported_but_proceeds (r : Resp) (h4 : 400 ≤ r.status)
    (h6 : r.status < 600) :
    (do_http_get (.ok r)).1 = [excMsg (.httpError r.status)] ∧
    (do_http_get (.ok r)).2 = .ok r ∧
    (get_dataframe (.ok r)).2 = parseBody r := by
  have hne : r.status ≠ 200 := by omega
  have hrfs : raiseForStatus r = .error (.httpError r.status) := by
    simp [raiseForStatus, h4, h6]
  refine ⟨?_, do_http_get_returns_resp r, ?_⟩
  · simp [do_http_get, hne, hrfs]
  · show ((do_http_get (.ok r)).2.bind parseBody) = _
    rw [do_http_get_returns_resp]
    rfl

/-- Witness for the amended claim C6 at the concrete 404 response. -/
theorem non200_reported_but_proceeds_witness :
    400 ≤ resp404.status ∧ resp404.status < 600 ∧
    ((do_http_get (.ok resp404)).1 = [excMsg (.httpError resp404.status)] ∧
     (do_http_get (.ok resp404)).2 = .ok resp404 ∧
     (get_dataframe (.ok resp404)).2 = parseBody resp404) :=
  ⟨by decide, by decide,
   non200_reported_but_proceeds resp404 (by decide) (by decide)⟩

/-- Claim C7 counterexample: a Producers record missing the port,
continent and state fields is not a fatal parse error: the DataFrame
constructor succeeds, keeps the record as a row, and silently puts the
NaN placeholder (none) in each missing cell. -/
theorem missing_fields_not_fatal_cex :
    mkDataFrame (.arr [recMissingPort]) =
      .ok [⟨some (.str "h1"), none, none, none, none⟩] ∧
    ∀ e : PyExc, mkDataFrame (.arr [recMissingPort]) ≠ .error e := by
  refine ⟨rfl, fun e he => ?_⟩
  rw [show mkDataFrame (.arr [recMissingPort]) =
      .ok [⟨some (.str "h1"), none, none, none, none⟩] from rfl] at he
  exact Except.noConfusion he

/-- Claim C7 amended: a record missing any of addr, port, continent or
state -- or carrying arbitrary values, since nothing is validated -- is
never a parse error: for every list of object records the frame is built
with exactly one row per record, each missing key silently becoming a
NaN cell, and the run continues. -/
theorem dataframe_fills_nan (recs : List (List (String × J))) :
    mkDataFrame (.arr (recs.map J.obj)) = .ok (recs.map mkRow) := by
  induction recs with
  | nil => rfl
  | cons a t ih =>
    have h1 : mkDataFrame (.arr (t.map J.obj)) = .ok (t.map mkRow) := ih
    simp only [mkDataFrame] at h1
    simp only [List.map_cons, mkDataFrame, List.mapM_cons, h1]
    rfl

/-- Claim C8: a successful probe returns exactly the measured elapsed
wall-clock time of the connect() call; under the 3-second socket-timeout
bound on that call the value is at most timeoutSeconds, hence strictly
below the sentinel 255.0; consequently, in any frame satisfying
the postcondition of sort_data, a row carrying such a measured latency is
placed strictly before every sentinel-latency row. -/
theorem successful_probe_beats_sentinel (host port : String) (t : Lat)
    (ht : t ≤ timeoutSeconds) :
    (get_rtt host port (.ok t)).1 = t ∧
    (get_rtt host port (.ok t)).1 < sentinel ∧
    (∀ input output, sort_data_post input output →
      ∀ i j (hi : i < output.length) (hj : j < output.length),
        rttKey (output.get ⟨i, hi⟩) = some (get_rtt host port (.ok t)).1 →
        rttKey (output.get ⟨j, hj⟩) = some sentinel →
        i < j) := by
  have hlt : t < sentinel :=
    lt_of_le_of_lt ht (by norm_num [timeoutSeconds, sentinel])
  refine ⟨rfl, hlt, ?_⟩
  intro input output hpost i j hi hj hki hkj
  haveI : IsTrans Row (fun a b => keyLeB (rttKey a) (rttKey b) = true) :=
    ⟨fun a b c => keyLeB_trans (rttKey a) (rttKey b) (rttKey c)⟩
  have hpair := List.chain'_iff_pairwise.mp hpost.2
  rw [List.pairwise_iff_get] at hpair
  by_contra hij
  rcases Nat.lt_or_ge j i with hji | hge
  · have hle := hpair ⟨j, hj⟩ ⟨i, hi⟩ hji
    rw [hkj, hki] at hle
    simp only [keyLeB, decide_eq_true_eq] at hle
    exact absurd hle (not_le.mpr hlt)
  · have heq : i = j := le_antisymm hge (Nat.not_lt.mp hij)
    subst heq
    have hcon : some ((get_rtt host port (.ok t)).1) = some sentinel :=
      hki.symm.trans hkj
    exact absurd (Option.some.inj hcon) (ne_of_lt hlt)

/-- Witness for claim C8 at a concrete 0.05-second measurement. -/
theorem successful_probe_beats_sentinel_witness :
    ((1 : Lat)/20) ≤ timeoutSeconds ∧
    ((get_rtt "h2" "3001" (.ok ((1 : Lat)/20))).1 = (1 : Lat)/20 ∧
     (get_rtt "h2" "3001" (.ok ((1 : Lat)/20))).1 < sentinel ∧
     (∀ input output, sort_data_post input output →
       ∀ i j (hi : i < output.length) (hj : j < output.length),
         rttKey (output.get ⟨i, hi⟩) =
           some (get_rtt "h2" "3001" (.ok ((1 : Lat)/20))).1 →
         rttKey (output.get ⟨j, hj⟩) = some sentinel →
         i < j)) :=
  ⟨by norm_num [timeoutSeconds],
   successful_probe_beats_sentinel "h2" "3001" ((1 : Lat)/20)
     (by norm_num [timeoutSeconds])⟩

end TopoSorter
